import Mathlib

/-
Verification development for the l2dbus subscription engine.

Shallow embedding of the relevant parts of the repository:
  - l2dbus_match.c : l2dbus_matchHandler, l2dbus_matchFreeRule, l2dbus_newMatch,
    l2dbus_disposeMatch
  - l2dbus_reflist.c : l2dbus_refListUnref, l2dbus_refListIterInit
  - l2dbus_int64.c : l2dbus_int64Power

Lua values read by these functions are modelled by a flat value type
(nil, boolean, number, string); numbers are modelled as integers since every
number the code inspects is used through lua_tointeger or compared as a
string.  Lua 5.1 would additionally coerce numeric strings in lua_isnumber;
numeric values are modelled only as the num constructor here, and no claim
exercises that coercion.  Tables are modelled only to the depth the code
reads them (the criteria table, its filterArgs array, and the per-entry
field triple type/index/value).
-/

set_option maxRecDepth 8000

/-- Flat Lua value, to the depth the embedded code inspects stack slots. -/
inductive LuaFlat where
  | nil
  | boolean (b : Bool)
  | num (n : Int)
  | str (s : String)
deriving DecidableEq

/-- Model of lua_isstring: true for strings and numbers (Lua coerces). -/
def lua_isstring : LuaFlat → Bool
  | .str _ => true
  | .num _ => true
  | _ => false

/-- Model of lua_tostring on values where lua_isstring holds; numbers are
converted to their decimal representation. -/
def lua_tostring : LuaFlat → String
  | .str s => s
  | .num n => toString n
  | _ => ""

/-- Model of lua_isnumber (numeric values only; see header note). -/
def lua_isnumber : LuaFlat → Bool
  | .num _ => true
  | _ => false

/-- Model of lua_tointeger on values where lua_isnumber holds. -/
def lua_tointeger : LuaFlat → Int
  | .num n => n
  | _ => 0

/-- Model of lua_isboolean. -/
def lua_isboolean : LuaFlat → Bool
  | .boolean _ => true
  | _ => false

/-- Model of lua_toboolean restricted to the guarded uses in the code
(only reached behind a lua_isboolean test). -/
def lua_toboolean : LuaFlat → Bool
  | .boolean b => b
  | .nil => false
  | _ => true

/-- One slot of the filterArgs array: either a non-table value (the code
only tests lua_istable on it) or a table from which exactly the three
fields type, index and value are read. -/
inductive LuaElem where
  | nonTable (v : LuaFlat)
  | tbl (typeF indexF valueF : LuaFlat)
deriving DecidableEq

/-- The filterArgs field of the criteria table: the code first tests
lua_istable; a non-table value (including nil for an absent field) is
skipped.  For a table, only the sequence part (lua_rawlen / lua_rawgeti)
is read, modelled as a list. -/
inductive FilterArgsField where
  | notTable (v : LuaFlat)
  | tbl (entries : List LuaElem)
deriving DecidableEq

/-- The criteria table handed to l2dbus_newMatch, with exactly the fields
the function reads via lua_getfield. -/
structure MatchCriteria where
  msgType : LuaFlat
  member : LuaFlat
  interface : LuaFlat
  sender : LuaFlat
  path : LuaFlat
  treatPathAsNamespace : LuaFlat
  arg0Namespace : LuaFlat
  eavesdrop : LuaFlat
  filterArgs : FilterArgsField
deriving DecidableEq

/-- cdbus message-class values used by the rule. -/
inductive cdbus_MatchMsgType where
  | methodCall
  | methodReturn
  | error
  | signal
  | any
deriving DecidableEq

/-- cdbus argN filter interpretation (the INVALID sentinel of the C array
is represented by the end of the list, not by a constructor). -/
inductive cdbus_FilterArgType where
  | arg
  | argPath
deriving DecidableEq

/-- One entry of the rule's filter-argument array. -/
structure cdbus_FilterArgItem where
  argType : cdbus_FilterArgType
  argN : Int
  value : String
deriving DecidableEq

/-- DBUS_MAXIMUM_MATCH_RULE_ARG_NUMBER from dbus-protocol.h. -/
def DBUS_MAXIMUM_MATCH_RULE_ARG_NUMBER : Int := 63

/-- The validated match rule built by l2dbus_newMatch.  An Option.none
string field models a NULL pointer (wildcard); filterArgs none models a
NULL filter array. -/
structure cdbus_MatchRule where
  msgType : cdbus_MatchMsgType
  member : Option String
  objInterface : Option String
  sender : Option String
  path : Option String
  treatPathAsNamespace : Bool
  arg0Namespace : Option String
  eavesdrop : Bool
  filterArgs : Option (List cdbus_FilterArgItem)
deriving DecidableEq

/-- The msgType switch of l2dbus_newMatch: a non-number resolves to ANY, as
does any number outside the four known D-Bus message-type codes
(METHOD_CALL=1, METHOD_RETURN=2, ERROR=3, SIGNAL=4). -/
def l2dbus_parseMsgType (v : LuaFlat) : cdbus_MatchMsgType :=
  if lua_isnumber v then
    if lua_tointeger v = 1 then .methodCall
    else if lua_tointeger v = 2 then .methodReturn
    else if lua_tointeger v = 3 then .error
    else if lua_tointeger v = 4 then .signal
    else .any
  else .any

/-- String-field pattern of l2dbus_newMatch: lua_isstring then strDup,
else NULL. -/
def luaOptStr (v : LuaFlat) : Option String :=
  if lua_isstring v then some (lua_tostring v) else none

/-- Boolean-field pattern of l2dbus_newMatch: lua_isboolean then
lua_toboolean, else CDBUS_FALSE. -/
def luaOptBool (v : LuaFlat) : Bool :=
  if lua_isboolean v then lua_toboolean v else false

/-- The type-tag test of the filterArgs loop: a string field is compared
against "string" and "path", an absent (nil) field defaults to the plain
string interpretation, anything else leaves CDBUS_FILTER_ARG_INVALID
(modelled as none). -/
def l2dbus_filterArgType (typeF : LuaFlat) : Option cdbus_FilterArgType :=
  if lua_isstring typeF then
    if lua_tostring typeF = "string" then some .arg
    else if lua_tostring typeF = "path" then some .argPath
    else none
  else if typeF = .nil then some .arg
  else none

/-- Loop body of the filterArgs loop in l2dbus_newMatch, for one slot of
the array: checks, in source order, that the slot is a table, that its
type tag passes l2dbus_filterArgType, that its index field is a number in
[0, 63], and that its value field is a string; on the first failing check
it produces the corresponding reason string of the C code. -/
def l2dbus_parseFilterArg (e : LuaElem) : Except String cdbus_FilterArgItem :=
  match e with
  | .nonTable _ => .error "argN table expected"
  | .tbl typeF indexF valueF =>
    match l2dbus_filterArgType typeF with
    | none => .error "unknown argument type specified (!= 'path' or 'string')"
    | some k =>
      if ¬ lua_isnumber indexF then .error "arg filter index not specified"
      else if lua_tointeger indexF < 0 ∨
          DBUS_MAXIMUM_MATCH_RULE_ARG_NUMBER < lua_tointeger indexF then
        .error "arg filter index out of range"
      else if ¬ lua_isstring valueF then .error "arg filter missing a value"
      else .ok ⟨k, lua_tointeger indexF, lua_tostring valueF⟩

/-- The filterArgs loop of l2dbus_newMatch over the (already truncated)
slot list.  On the first failing slot it stops with that reason and the
items completed so far (the partial array that the C code later frees);
otherwise it yields all items in order. -/
def l2dbus_parseFilterArgs :
    List LuaElem → Except (String × List cdbus_FilterArgItem) (List cdbus_FilterArgItem)
  | [] => .ok []
  | e :: rest =>
    match l2dbus_parseFilterArg e with
    | .error r => .error (r, [])
    | .ok item =>
      match l2dbus_parseFilterArgs rest with
      | .error (r, items) => .error (r, item :: items)
      | .ok items => .ok (item :: items)

/-- The scalar portion of the rule that l2dbus_newMatch fills in before the
filterArgs loop (msgType switch, five string fields, two boolean flags);
filterArgs starts out NULL. -/
def l2dbus_baseRule (c : MatchCriteria) : cdbus_MatchRule :=
  ⟨l2dbus_parseMsgType c.msgType, luaOptStr c.member, luaOptStr c.interface,
   luaOptStr c.sender, luaOptStr c.path, luaOptBool c.treatPathAsNamespace,
   luaOptStr c.arg0Namespace, luaOptBool c.eavesdrop, none⟩

/-- The rule-construction phase of l2dbus_newMatch (everything before the
registration step): builds the scalar fields, then — only when filterArgs
is a table with a non-empty sequence part — runs the filter loop over the
first DBUS_MAXIMUM_MATCH_RULE_ARG_NUMBER+1 = 64 slots (the C code truncates
nFilterArgs to that bound).  On failure it returns the reason together
with the partially built rule, which the C code hands to
l2dbus_matchFreeRule. -/
def l2dbus_buildMatchRule (c : MatchCriteria) :
    Except (String × cdbus_MatchRule) cdbus_MatchRule :=
  match c.filterArgs with
  | .notTable _ => .ok (l2dbus_baseRule c)
  | .tbl entries =>
    if 0 < entries.length then
      match l2dbus_parseFilterArgs (entries.take 64) with
      | .error (r, done) =>
        .error (r, { l2dbus_baseRule c with filterArgs := some done })
      | .ok items => .ok { l2dbus_baseRule c with filterArgs := some items }
    else .ok (l2dbus_baseRule c)

/-- l2dbus_matchFreeRule, observed as the list of owned strings it releases
(the five scalar strings, then each filter value up to the sentinel; the
array itself and NULL fields produce no entry). -/
def l2dbus_matchFreeRule (r : cdbus_MatchRule) : List String :=
  r.member.toList ++ r.objInterface.toList ++ r.sender.toList ++
    r.path.toList ++ r.arg0Namespace.toList ++
    (match r.filterArgs with
     | none => []
     | some items => items.map cdbus_FilterArgItem.value)

instance {ε α : Type} [DecidableEq ε] [DecidableEq α] : DecidableEq (Except ε α)
  | .error e1, .error e2 =>
    if h : e1 = e2 then .isTrue (by rw [h]) else .isFalse (by simp [h])
  | .error _, .ok _ => .isFalse (by simp)
  | .ok _, .error _ => .isFalse (by simp)
  | .ok a1, .ok a2 =>
    if h : a1 = a2 then .isTrue (by rw [h]) else .isFalse (by simp [h])

/-- Observable outcome of one l2dbus_newMatch call.  matchObj is the
returned pointer (none = NULL) carrying the native handle of the
registered match; errMsgOut is the final contents of the char pointer
cell that errMsg points at; refsTaken records whether the connection
registry reference and the callback pair reference were taken
(lua_pushvalue/luaL_ref and l2dbus_callbackRef); shellFreed records
whether free() ran on an allocated match shell; freed is the string list
released by the final l2dbus_matchFreeRule call. -/
structure NewMatchOutcome where
  matchObj : Option Nat
  errMsgOut : Option String
  refsTaken : Bool
  shellFreed : Bool
  freed : List String
deriving DecidableEq

/-- l2dbus_newMatch.  The collaborator cdbus_connectionRegMatchHandler is a
parameter reg from the rule to an optional native handle (none models
CDBUS_INVALID_HANDLE).  The errMsg parameter is a pointer to a string
cell: the outer Option models the pointer itself (none = NULL), the inner
Option the C string stored in the cell.  The C code executes
`if (*errMsg != NULL) *errMsg = reason;` on every path, so a NULL errMsg
pointer is dereferenced unconditionally: that undefined behaviour is
modelled by the none result.  Allocation (l2dbus_calloc) is modelled as
succeeding; the allocation-failure reasons of the C code are unreachable
in this model. -/
def l2dbus_newMatch (crit : MatchCriteria) (reg : cdbus_MatchRule → Option Nat)
    (errMsg : Option (Option String)) : Option NewMatchOutcome :=
  match l2dbus_buildMatchRule crit with
  | .error (reason, partialRule) =>
    match errMsg with
    | none => none
    | some cell =>
      some ⟨none, cell.map fun _ => reason, false, false,
            l2dbus_matchFreeRule partialRule⟩
  | .ok rule =>
    match reg rule with
    | none =>
      match errMsg with
      | none => none
      | some cell =>
        some ⟨none, cell.map fun _ => "failed to register match handler",
              false, true, l2dbus_matchFreeRule rule⟩
    | some hnd =>
      match errMsg with
      | none => none
      | some cell =>
        some ⟨some hnd, cell.map fun _ => "", true, false,
              l2dbus_matchFreeRule rule⟩

/-- The l2dbus_Match shell as seen by l2dbus_disposeMatch: the native
handle stored at registration and the registry reference to the owning
connection. -/
structure l2dbus_Match where
  matchHnd : Nat
  connRef : Nat
deriving DecidableEq

/-- The externally visible steps of l2dbus_disposeMatch, in execution
order: native unregistration, the warning trace on a failed
unregistration, the release of the callback pair references
(l2dbus_callbackUnref), the release of the connection registry
reference (luaL_unref on connRef), and free() on the shell. -/
inductive DisposeEvent where
  | unregMatch (hnd : Nat)
  | logWarn
  | callbackUnref
  | connUnref (ref : Nat)
  | freeShell
deriving DecidableEq

/-- l2dbus_disposeMatch as the ordered trace of its steps.  unregOk is the
outcome of the collaborator cdbus_connectionUnregMatchHandler (false =
CDBUS_FAILED).  A NULL match pointer does nothing. -/
def l2dbus_disposeMatch (match? : Option l2dbus_Match) (unregOk : Bool) :
    List DisposeEvent :=
  match match? with
  | none => []
  | some m =>
    DisposeEvent.unregMatch m.matchHnd ::
      ((if unregOk then [] else [DisposeEvent.logWarn]) ++
       [DisposeEvent.callbackUnref, DisposeEvent.connUnref m.connRef,
        DisposeEvent.freeShell])

/-- Model of lua_pcall applied to the handler invocation: a failing
handler (Except.error) is converted into a non-zero status with the
error value left on the stack; it never escapes the protected call. -/
def lua_pcall (call : Except LuaFlat Unit) : Nat × Option LuaFlat :=
  match call with
  | .ok _ => (0, none)
  | .error v => (1, some v)

/-- l2dbus_matchHandler, the dispatch trampoline, as a function from the
match context (none = NULL userData), the outcome the Lua handler would
produce (an Except value: error means the handler raised), and the
initial stack depth of the callback thread, to the final stack depth and
the trace messages emitted.  The C function pushes the function, the
light userdata, the wrapped message and the user value, runs lua_pcall,
logs a non-zero status (the message is the error value when it is a
string, the initial empty errMsg otherwise), and ends with
lua_settop(L, 0) on every path. -/
def l2dbus_matchHandler (matchCtx : Option Nat)
    (handler : Except LuaFlat Unit) (initTop : Nat) : Nat × List String :=
  match matchCtx with
  | none =>
    let _ := initTop + 4
    (0, [])
  | some _ =>
    let st := lua_pcall handler
    let logs :=
      if st.1 ≠ 0 then
        ["Match callback error: " ++
          (match st.2 with
           | some v => if lua_isstring v then lua_tostring v else ""
           | none => "")]
      else []
    (0, logs)

/-- A node pointer of the BSD-queue reference list is modelled as the list
suffix starting at that node; NULL (= LIST_END) is the empty suffix.
The list items are the integer registry tokens (refIdx). -/
structure l2dbus_RefListIter where
  cur : List Int
  next : List Int
deriving DecidableEq

/-- l2dbus_refListIterInit: cur := LIST_FIRST, next := LIST_NEXT(cur).
LIST_NEXT is read unconditionally, so on an empty list it dereferences
the NULL first pointer; that undefined behaviour is the none result. -/
def l2dbus_refListIterInit (l : List Int) : Option l2dbus_RefListIter :=
  match l with
  | [] => none
  | a :: t => some ⟨a :: t, t⟩

/-- Observable outcome of l2dbus_refListUnref: the list after the call,
the returned l2dbus_Bool, and the registry tokens passed to luaL_unref. -/
structure UnrefResult where
  list : List Int
  status : Bool
  unrefCalls : List Int
deriving DecidableEq

/-- l2dbus_refListUnref: walks the list, and on the first item whose
refIdx equals ref it releases the registry token, unlinks and frees the
item, sets status to L2DBUS_FALSE (the code assigns L2DBUS_FALSE in the
found branch, the same value status was initialised with) and stops. -/
def l2dbus_refListUnref : List Int → Int → UnrefResult
  | [], _ => ⟨[], false, []⟩
  | i :: rest, ref =>
    if ref = i then ⟨rest, false, [i]⟩
    else
      let r := l2dbus_refListUnref rest ref
      ⟨i :: r.list, r.status, r.unrefCalls⟩

/-- Wrap-around of a mathematical integer into the value an int64_t
two-complement register holds after an overflowing operation. -/
def wrap64 (z : Int) : Int := (z + 2 ^ 63) % 2 ^ 64 - 2 ^ 63

/-- The exponentiation loop of l2dbus_int64Power, written with an explicit
structural fuel so that it evaluates; powLoop64 below instantiates the
fuel with the exponent itself, which bounds the number of halvings. -/
def powLoop64Aux : Nat → Int → Int → Nat → Int
  | 0, _, result, _ => result
  | fuel + 1, base, result, exp =>
    if exp = 0 then result
    else
      powLoop64Aux fuel (wrap64 (base * base))
        (if exp % 2 = 1 then wrap64 (result * base) else result) (exp / 2)

/-- The while loop of l2dbus_int64Power: while exp is non-zero, multiply
result by base when the low bit is set, shift exp right, square base;
int64_t products wrap. -/
def powLoop64 (base : Int) (exp : Nat) : Int := powLoop64Aux exp base 1 exp

/-- l2dbus_int64Power on the two operands produced by l2dbus_int64Cast: a
negative exponent yields 0L, otherwise the square-and-multiply loop runs
with result initialised to 1. -/
def l2dbus_int64Power (base exp : Int) : Int :=
  if 0 > exp then 0 else powLoop64 base exp.toNat

/-- Claim-side description of an invalid filter-argument slot, written
from the words of the specification: a non-sequence element, a type tag
other than "string" or "path" (a non-string, non-nil tag included), a
missing index, an index outside [0, 63], or a missing value. -/
def claimBadElem : LuaElem → Prop
  | .nonTable _ => True
  | .tbl typeF indexF valueF =>
      (lua_isstring typeF = true ∧ lua_tostring typeF ≠ "string" ∧
        lua_tostring typeF ≠ "path") ∨
      (lua_isstring typeF = false ∧ typeF ≠ LuaFlat.nil) ∨
      lua_isnumber indexF = false ∨
      (lua_isnumber indexF = true ∧
        (lua_tointeger indexF < 0 ∨ 63 < lua_tointeger indexF)) ∨
      lua_isstring valueF = false

/-- A criteria table with every field absent (nil). -/
def emptyCriteria : MatchCriteria :=
  ⟨.nil, .nil, .nil, .nil, .nil, .nil, .nil, .nil, .notTable .nil⟩

/-- A criteria table whose filterArgs array holds two entries with the
same argument index 5. -/
def dupIndexCriteria : MatchCriteria :=
  ⟨.nil, .nil, .nil, .nil, .nil, .nil, .nil, .nil,
   .tbl [.tbl .nil (.num 5) (.str "a"), .tbl .nil (.num 5) (.str "b")]⟩

/-- A criteria table whose filterArgs field is present but not a table. -/
def nonTableFilterCriteria : MatchCriteria :=
  ⟨.nil, .nil, .nil, .nil, .nil, .nil, .nil, .nil, .notTable (.str "oops")⟩

/-- A criteria table whose single filter slot is not a table. -/
def badElemCriteria : MatchCriteria :=
  ⟨.nil, .nil, .nil, .nil, .nil, .nil, .nil, .nil, .tbl [.nonTable .nil]⟩

/-- A valid filter slot with index 0 (type absent, defaults to string). -/
def goodSlot : LuaElem := .tbl .nil (.num 0) (.str "v")

/-- The filter item goodSlot parses to. -/
def goodItem : cdbus_FilterArgItem := ⟨.arg, 0, "v"⟩

/-- A criteria table with 65 valid filter slots, one more than the 64 the
code keeps. -/
def overlongCriteria : MatchCriteria :=
  ⟨.nil, .nil, .nil, .nil, .nil, .nil, .nil, .nil,
   .tbl (List.replicate 65 goodSlot)⟩

/-- A criteria table with 64 valid slots followed by a bad (non-table)
slot in position 65. -/
def badTailCriteria : MatchCriteria :=
  ⟨.nil, .nil, .nil, .nil, .nil, .nil, .nil, .nil,
   .tbl (List.replicate 64 goodSlot ++ [.nonTable .nil])⟩

lemma l2dbus_parseFilterArg_error_cases (e : LuaElem) (r : String)
    (h : l2dbus_parseFilterArg e = .error r) :
    r = "argN table expected" ∨
    r = "unknown argument type specified (!= 'path' or 'string')" ∨
    r = "arg filter index not specified" ∨
    r = "arg filter index out of range" ∨
    r = "arg filter missing a value" := by
  cases e with
  | nonTable v =>
    simp only [l2dbus_parseFilterArg, Except.error.injEq] at h
    tauto
  | tbl typeF indexF valueF =>
    simp only [l2dbus_parseFilterArg] at h
    rcases ht : l2dbus_filterArgType typeF with _ | k <;> rw [ht] at h
    · simp only [Except.error.injEq] at h
      tauto
    · split_ifs at h <;> simp only [Except.error.injEq] at h <;> tauto

lemma l2dbus_parseFilterArg_ok_not_bad (e : LuaElem)
    (i : cdbus_FilterArgItem) (h : l2dbus_parseFilterArg e = .ok i) :
    ¬ claimBadElem e := by
  cases e with
  | nonTable v => simp [l2dbus_parseFilterArg] at h
  | tbl typeF indexF valueF =>
    simp only [l2dbus_parseFilterArg] at h
    rcases ht : l2dbus_filterArgType typeF with _ | k <;> rw [ht] at h
    · simp at h
    · dsimp only at h
      have h1 : lua_isnumber indexF = true := by
        by_contra hc
        rw [if_pos hc] at h
        exact Except.noConfusion h
      rw [if_neg (not_not_intro h1)] at h
      have h2 : ¬(lua_tointeger indexF < 0 ∨
          DBUS_MAXIMUM_MATCH_RULE_ARG_NUMBER < lua_tointeger indexF) := by
        intro hc
        rw [if_pos hc] at h
        exact Except.noConfusion h
      rw [if_neg h2] at h
      have h3 : lua_isstring valueF = true := by
        by_contra hc
        rw [if_pos hc] at h
        exact Except.noConfusion h
      intro hbad
      unfold l2dbus_filterArgType at ht
      rcases hbad with ⟨hs, hns, hnp⟩ | ⟨hns, hnn⟩ | hidx | ⟨hnum, hrange⟩ | hval
      · rw [if_pos hs, if_neg hns, if_neg hnp] at ht
        exact Option.noConfusion ht
      · rw [if_neg (by simp [hns]), if_neg hnn] at ht
        exact Option.noConfusion ht
      · simp [hidx] at h1
      · exact h2 (by simpa [DBUS_MAXIMUM_MATCH_RULE_ARG_NUMBER] using hrange)
      · simp [hval] at h3

lemma l2dbus_parseFilterArgs_ok_forall (es : List LuaElem)
    (items : List cdbus_FilterArgItem)
    (h : l2dbus_parseFilterArgs es = .ok items) :
    ∀ e ∈ es, ∃ i, l2dbus_parseFilterArg e = .ok i := by
  induction es generalizing items with
  | nil => intro e he; cases he
  | cons a rest ih =>
    intro e he
    unfold l2dbus_parseFilterArgs at h
    rcases ha : l2dbus_parseFilterArg a with ra | i <;> rw [ha] at h
    · exact absurd h (by simp)
    · rcases hr : l2dbus_parseFilterArgs rest with ⟨rr, ds⟩ | is <;> rw [hr] at h
      · exact absurd h (by simp)
      · rcases List.mem_cons.mp he with he | he
        · exact ⟨i, he ▸ ha⟩
        · exact ih is hr e he

lemma l2dbus_parseFilterArgs_error_cases (es : List LuaElem) (r : String)
    (done : List cdbus_FilterArgItem)
    (h : l2dbus_parseFilterArgs es = .error (r, done)) :
    r = "argN table expected" ∨
    r = "unknown argument type specified (!= 'path' or 'string')" ∨
    r = "arg filter index not specified" ∨
    r = "arg filter index out of range" ∨
    r = "arg filter missing a value" := by
  induction es generalizing r done with
  | nil => simp [l2dbus_parseFilterArgs] at h
  | cons a rest ih =>
    unfold l2dbus_parseFilterArgs at h
    rcases ha : l2dbus_parseFilterArg a with ra | i <;> rw [ha] at h
    · simp only [Except.error.injEq, Prod.mk.injEq] at h
      exact h.1 ▸ l2dbus_parseFilterArg_error_cases a ra ha
    · rcases hr : l2dbus_parseFilterArgs rest with ⟨rr, ds⟩ | is <;> rw [hr] at h
      · simp only [Except.error.injEq, Prod.mk.injEq] at h
        exact h.1 ▸ ih rr ds hr
      · exact absurd h (by simp)

lemma l2dbus_parseFilterArgs_ok_length (es : List LuaElem)
    (items : List cdbus_FilterArgItem)
    (h : l2dbus_parseFilterArgs es = .ok items) :
    items.length = es.length := by
  induction es generalizing items with
  | nil =>
    simp only [l2dbus_parseFilterArgs, Except.ok.injEq] at h
    simp [← h]
  | cons a rest ih =>
    unfold l2dbus_parseFilterArgs at h
    rcases ha : l2dbus_parseFilterArg a with ra | i <;> rw [ha] at h
    · exact absurd h (by simp)
    · rcases hr : l2dbus_parseFilterArgs rest with ⟨rr, ds⟩ | is <;> rw [hr] at h
      · exact absurd h (by simp)
      · simp only [Except.ok.injEq] at h
        simp [← h, ih is hr]

lemma l2dbus_parseFilterArgs_replicate (e : LuaElem) (i : cdbus_FilterArgItem)
    (h : l2dbus_parseFilterArg e = .ok i) (n : Nat) :
    l2dbus_parseFilterArgs (List.replicate n e) =
      .ok (List.replicate n i) := by
  induction n with
  | zero => simp [l2dbus_parseFilterArgs]
  | succ k ih =>
    simp only [List.replicate_succ]
    unfold l2dbus_parseFilterArgs
    rw [h, ih]

lemma wrap64_emod (z : Int) : wrap64 z % 2 ^ 64 = z % 2 ^ 64 := by
  unfold wrap64
  omega

lemma wrap64_range (z : Int) :
    -(2 ^ 63) ≤ wrap64 z ∧ wrap64 z < 2 ^ 63 := by
  unfold wrap64
  omega

lemma powLoop64Aux_emod (fuel : Nat) :
    ∀ (b r : Int) (e : Nat), e ≤ fuel →
      powLoop64Aux fuel b r e % 2 ^ 64 = r * b ^ e % 2 ^ 64 := by
  induction fuel with
  | zero =>
    intro b r e he
    have h0 : e = 0 := by omega
    subst h0
    simp [powLoop64Aux]
  | succ k ih =>
    intro b r e he
    by_cases h0 : e = 0
    · subst h0
      simp [powLoop64Aux]
    · have hstep : powLoop64Aux (k + 1) b r e =
          powLoop64Aux k (wrap64 (b * b))
            (if e % 2 = 1 then wrap64 (r * b) else r) (e / 2) := by
        simp only [powLoop64Aux, if_neg h0]
      rw [hstep, ih _ _ _ (by omega)]
      by_cases hp : e % 2 = 1
      · rw [if_pos hp]
        show Int.ModEq (2 ^ 64) (wrap64 (r * b) * wrap64 (b * b) ^ (e / 2))
          (r * b ^ e)
        have e1 : Int.ModEq (2 ^ 64)
            (wrap64 (r * b) * wrap64 (b * b) ^ (e / 2))
            (r * b * (b * b) ^ (e / 2)) :=
          Int.ModEq.mul (wrap64_emod (r * b))
            (Int.ModEq.pow (e / 2) (wrap64_emod (b * b)))
        have e2 : r * b * (b * b) ^ (e / 2) = r * b ^ e := by
          have he2 : e = 2 * (e / 2) + 1 := by omega
          rw [show b * b = b ^ 2 from by ring, ← pow_mul]
          conv_rhs => rw [he2, pow_succ]
          ring
        exact e2 ▸ e1
      · rw [if_neg hp]
        show Int.ModEq (2 ^ 64) (r * wrap64 (b * b) ^ (e / 2)) (r * b ^ e)
        have e1 : Int.ModEq (2 ^ 64) (r * wrap64 (b * b) ^ (e / 2))
            (r * (b * b) ^ (e / 2)) :=
          Int.ModEq.mul (Int.ModEq.refl r)
            (Int.ModEq.pow (e / 2) (wrap64_emod (b * b)))
        have e2 : r * (b * b) ^ (e / 2) = r * b ^ e := by
          have he2 : e = 2 * (e / 2) := by omega
          rw [show b * b = b ^ 2 from by ring, ← pow_mul]
          conv_rhs => rw [he2]
        exact e2 ▸ e1

lemma powLoop64Aux_range (fuel : Nat) :
    ∀ (b r : Int) (e : Nat), -(2 ^ 63) ≤ r → r < 2 ^ 63 →
      -(2 ^ 63) ≤ powLoop64Aux fuel b r e ∧ powLoop64Aux fuel b r e < 2 ^ 63 := by
  induction fuel with
  | zero =>
    intro b r e h1 h2
    exact ⟨h1, h2⟩
  | succ k ih =>
    intro b r e h1 h2
    by_cases h0 : e = 0
    · subst h0
      simpa [powLoop64Aux] using ⟨h1, h2⟩
    · have hstep : powLoop64Aux (k + 1) b r e =
          powLoop64Aux k (wrap64 (b * b))
            (if e % 2 = 1 then wrap64 (r * b) else r) (e / 2) := by
        simp only [powLoop64Aux, if_neg h0]
      rw [hstep]
      by_cases hp : e % 2 = 1
      · rw [if_pos hp]
        exact ih _ _ _ (wrap64_range _).1 (wrap64_range _).2
      · rw [if_neg hp]
        exact ih _ _ _ h1 h2

lemma refListUnref_status_false (l : List Int) (ref : Int) :
    (l2dbus_refListUnref l ref).status = false := by
  induction l with
  | nil => rfl
  | cons a rest ih =>
    unfold l2dbus_refListUnref
    by_cases hc : ref = a
    · rw [if_pos hc]
    · rw [if_neg hc]
      exact ih

lemma refListUnref_not_mem (l : List Int) (ref : Int) (h : ref ∉ l) :
    l2dbus_refListUnref l ref = ⟨l, false, []⟩ := by
  induction l with
  | nil => rfl
  | cons a rest ih =>
    unfold l2dbus_refListUnref
    rw [if_neg (fun hc => h (by rw [hc]; exact List.mem_cons_self a rest))]
    rw [ih (fun hm => h (List.mem_cons_of_mem a hm))]

/-- C1 counterexample: a criteria table whose filterArgs list contains two
entries with the same argument index 5 does NOT make l2dbus_newMatch fail
with a builder error; the build succeeds and the rule keeps both entries,
and registration proceeds normally. -/
theorem l2dbus_c1_counterexample :
    l2dbus_buildMatchRule dupIndexCriteria =
      .ok { l2dbus_baseRule dupIndexCriteria with
            filterArgs := some [⟨.arg, 5, "a"⟩, ⟨.arg, 5, "b"⟩] } ∧
    l2dbus_newMatch dupIndexCriteria (fun _ => some 7) (some (some "")) =
      some ⟨some 7, some "", true, false, ["a", "b"]⟩ := by
  constructor <;> rfl

/-- C1 (amended): the builder validates filter entries only individually;
it performs no duplicate-index check, so whenever every entry of the
truncated filterArgs list parses, the build succeeds and the rule carries
exactly the parsed entries in input order — entries sharing an argument
index included, neither rejected nor overwritten (see the witness, whose
two entries both carry index 5). -/
theorem l2dbus_c1_dup_indices_kept (c : MatchCriteria)
    (entries : List LuaElem) (items : List cdbus_FilterArgItem)
    (h1 : c.filterArgs = .tbl entries) (h2 : entries ≠ [])
    (h3 : l2dbus_parseFilterArgs (entries.take 64) = .ok items) :
    l2dbus_buildMatchRule c =
      .ok { l2dbus_baseRule c with filterArgs := some items } := by
  have h2l : 0 < entries.length := by
    rcases entries with _ | ⟨a, t⟩
    · exact absurd rfl h2
    · simp
  simp only [l2dbus_buildMatchRule, h1, if_pos h2l, h3]

theorem l2dbus_c1_dup_indices_kept_witness :
    l2dbus_buildMatchRule dupIndexCriteria =
      .ok { l2dbus_baseRule dupIndexCriteria with
            filterArgs := some [⟨.arg, 5, "a"⟩, ⟨.arg, 5, "b"⟩] } :=
  l2dbus_c1_dup_indices_kept dupIndexCriteria
    [.tbl .nil (.num 5) (.str "a"), .tbl .nil (.num 5) (.str "b")]
    [⟨.arg, 5, "a"⟩, ⟨.arg, 5, "b"⟩] rfl (by decide) (by decide)

/-- C2 counterexample: (a) a filterArgs field that is present but not a
sequence does NOT fail the build — it is skipped and the build succeeds
with a wildcard filter list; (b) a bad element beyond position 64 is
silently dropped by the truncation rather than failing the build. -/
theorem l2dbus_c2_counterexample :
    l2dbus_buildMatchRule nonTableFilterCriteria =
      .ok (l2dbus_baseRule nonTableFilterCriteria) ∧
    l2dbus_buildMatchRule badTailCriteria =
      .ok { l2dbus_baseRule badTailCriteria with
            filterArgs := some (List.replicate 64 goodItem) } := by
  constructor
  · rfl
  · have hf : badTailCriteria.filterArgs =
        .tbl (List.replicate 64 goodSlot ++ [.nonTable .nil]) := rfl
    have htake : (List.replicate 64 goodSlot ++
        [LuaElem.nonTable .nil]).take 64 = List.replicate 64 goodSlot :=
      List.take_left' (by simp)
    have hparse := l2dbus_parseFilterArgs_replicate goodSlot goodItem rfl 64
    simp only [l2dbus_buildMatchRule, hf, htake, hparse,
      if_pos (by simp : 0 < (List.replicate 64 goodSlot ++
        [LuaElem.nonTable .nil]).length)]

/-- C2 (amended): for every criteria whose filterArgs table contains,
within the first 64 slots, a non-table element, an element with an
unrecognized type tag, a missing index, an out-of-range index, or a
missing value, the build fails immediately with one of the five specific
reason strings and l2dbus_newMatch returns NULL (no MatchRule/match
object is handed out and no references are taken).  A filterArgs field
that is present but not a table is treated as absent, and slots beyond
the 64th are ignored (see the counterexample). -/
theorem l2dbus_c2_filter_validation (c : MatchCriteria)
    (entries : List LuaElem) (e : LuaElem)
    (h1 : c.filterArgs = .tbl entries)
    (he : e ∈ entries.take 64) (hb : claimBadElem e) :
    ∃ r partialRule,
      l2dbus_buildMatchRule c = .error (r, partialRule) ∧
      (r = "argN table expected" ∨
       r = "unknown argument type specified (!= 'path' or 'string')" ∨
       r = "arg filter index not specified" ∨
       r = "arg filter index out of range" ∨
       r = "arg filter missing a value") ∧
      ∀ reg cell, ∃ out,
        l2dbus_newMatch c reg (some cell) = some out ∧
        out.matchObj = none ∧ out.refsTaken = false := by
  have hne : 0 < entries.length := by
    rcases entries with _ | ⟨a, t⟩
    · simp at he
    · simp
  rcases hp : l2dbus_parseFilterArgs (entries.take 64) with ⟨r, done⟩ | items
  · have hbuild : l2dbus_buildMatchRule c =
        .error (r, { l2dbus_baseRule c with filterArgs := some done }) := by
      simp only [l2dbus_buildMatchRule, h1, if_pos hne, hp]
    refine ⟨r, _, hbuild, l2dbus_parseFilterArgs_error_cases _ _ _ hp, ?_⟩
    intro reg cell
    refine ⟨⟨none, cell.map fun _ => r, false, false,
      l2dbus_matchFreeRule
        { l2dbus_baseRule c with filterArgs := some done }⟩, ?_, rfl, rfl⟩
    simp only [l2dbus_newMatch, hbuild]
  · exfalso
    obtain ⟨i, hi⟩ := l2dbus_parseFilterArgs_ok_forall _ _ hp e he
    exact l2dbus_parseFilterArg_ok_not_bad e i hi hb

theorem l2dbus_c2_filter_validation_witness :
    ∃ r partialRule,
      l2dbus_buildMatchRule badElemCriteria = .error (r, partialRule) ∧
      (r = "argN table expected" ∨
       r = "unknown argument type specified (!= 'path' or 'string')" ∨
       r = "arg filter index not specified" ∨
       r = "arg filter index out of range" ∨
       r = "arg filter missing a value") ∧
      ∀ reg cell, ∃ out,
        l2dbus_newMatch badElemCriteria reg (some cell) = some out ∧
        out.matchObj = none ∧ out.refsTaken = false :=
  l2dbus_c2_filter_validation badElemCriteria [.nonTable .nil]
    (.nonTable .nil) rfl (by decide) (by simp [claimBadElem])

/-- C3: l2dbus_refListUnref with a token not present in the list is a
no-op — the list is unchanged and no registry token is released — and
the returned boolean is L2DBUS_FALSE in every case, so the found and
not-found outcomes are indistinguishable from the result. -/
theorem l2dbus_c3_refListUnref_ambiguous (l l2 : List Int)
    (ref ref2 : Int) :
    (ref ∉ l → l2dbus_refListUnref l ref = ⟨l, false, []⟩) ∧
    (l2dbus_refListUnref l ref).status = false ∧
    (l2dbus_refListUnref l ref).status =
      (l2dbus_refListUnref l2 ref2).status := by
  refine ⟨refListUnref_not_mem l ref, refListUnref_status_false l ref, ?_⟩
  rw [refListUnref_status_false, refListUnref_status_false]

theorem l2dbus_c3_refListUnref_ambiguous_witness :
    l2dbus_refListUnref [3, 7] 5 = ⟨[3, 7], false, []⟩ ∧
    (l2dbus_refListUnref [3, 7] 5).status = false ∧
    (l2dbus_refListUnref [3, 7] 5).status =
      (l2dbus_refListUnref [3, 7] 7).status := by
  obtain ⟨h1, h2, h3⟩ :=
    l2dbus_c3_refListUnref_ambiguous [3, 7] [3, 7] 5 7
  exact ⟨h1 (by decide), h2, h3⟩

/-- C4: when the filterArgs sequence has more than 64 entries and the
first 64 parse successfully, the build succeeds using exactly those
first 64 entries; everything beyond the 64th is ignored. -/
theorem l2dbus_c4_truncate_to_64 (c : MatchCriteria)
    (entries : List LuaElem) (items : List cdbus_FilterArgItem)
    (h1 : c.filterArgs = .tbl entries) (h2 : 64 < entries.length)
    (h3 : l2dbus_parseFilterArgs (entries.take 64) = .ok items) :
    l2dbus_buildMatchRule c =
      .ok { l2dbus_baseRule c with filterArgs := some items } ∧
    items.length = 64 := by
  constructor
  · simp only [l2dbus_buildMatchRule, h1, if_pos (by omega : 0 < entries.length), h3]
  · rw [l2dbus_parseFilterArgs_ok_length _ _ h3, List.length_take]
    omega

theorem l2dbus_c4_truncate_to_64_witness :
    l2dbus_buildMatchRule overlongCriteria =
      .ok { l2dbus_baseRule overlongCriteria with
            filterArgs := some (List.replicate 64 goodItem) } ∧
    (List.replicate 64 goodItem).length = 64 :=
  l2dbus_c4_truncate_to_64 overlongCriteria (List.replicate 65 goodSlot)
    (List.replicate 64 goodItem) rfl (by simp)
    (by
      have htake : (List.replicate 65 goodSlot).take 64 =
          List.replicate 64 goodSlot := by
        rw [List.take_replicate]
        norm_num
      rw [htake]
      exact l2dbus_parseFilterArgs_replicate goodSlot goodItem rfl 64)

/-- C5: the dispatch trampoline l2dbus_matchHandler confines handler
failure: for every match context (including NULL), every handler outcome
and every initial stack depth, it returns with the thread stack reset to
top = 0, its behaviour does not depend on the initial stack depth, a
raised handler error is only converted into a logged trace message, and
a successful handler produces no error log.  Its result type is a plain
pair — the handler error value, modelled as the Except.error the
protected call receives, never escapes into the result. -/
theorem l2dbus_c5_matchHandler_confines (matchCtx : Option Nat)
    (handler : Except LuaFlat Unit) (initTop : Nat) :
    (l2dbus_matchHandler matchCtx handler initTop).1 = 0 ∧
    l2dbus_matchHandler matchCtx handler initTop =
      l2dbus_matchHandler matchCtx handler 0 ∧
    (∀ v, handler = .error v → ∀ m, matchCtx = some m →
      (l2dbus_matchHandler matchCtx handler initTop).2 =
        ["Match callback error: " ++
          (if lua_isstring v then lua_tostring v else "")]) ∧
    (handler = .ok () →
      (l2dbus_matchHandler matchCtx handler initTop).2 = []) := by
  rcases matchCtx with _ | m <;> rcases handler with v | u <;>
    simp [l2dbus_matchHandler, lua_pcall]

theorem l2dbus_c5_matchHandler_confines_witness :
    (l2dbus_matchHandler (some 0) (.error (.str "boom")) 3).1 = 0 ∧
    (l2dbus_matchHandler (some 0) (.error (.str "boom")) 3).2 =
      ["Match callback error: boom"] := by
  obtain ⟨h1, _, h3, _⟩ :=
    l2dbus_c5_matchHandler_confines (some 0) (.error (.str "boom")) 3
  refine ⟨h1, ?_⟩
  rw [h3 (.str "boom") rfl 0 rfl]
  rfl

/-- C6: l2dbus_disposeMatch on a non-NULL match always produces the trace
native-unregistration first, then (at most) a logged warning when the
native client reports failure, then the callback/user-data reference
release, then the connection registry reference release, then the free
of the shell — so no reference is released before the native
unregistration has been attempted, and an unregistration failure never
aborts the remaining teardown. -/
theorem l2dbus_c6_dispose_order (m : l2dbus_Match) (unregOk : Bool) :
    ∃ between,
      l2dbus_disposeMatch (some m) unregOk =
        DisposeEvent.unregMatch m.matchHnd ::
          (between ++ [DisposeEvent.callbackUnref,
            DisposeEvent.connUnref m.connRef, DisposeEvent.freeShell]) ∧
      ∀ e ∈ between, e = DisposeEvent.logWarn := by
  cases unregOk
  · exact ⟨[DisposeEvent.logWarn], rfl, by simp⟩
  · exact ⟨[], rfl, by simp⟩

/-- C7: when the rule builds but native registration returns the invalid
handle, l2dbus_newMatch rolls back completely: NULL is returned, the
shell is freed, no connection or callback registry references are taken,
every owned string of the built rule is released by
l2dbus_matchFreeRule, and the registration-failure reason is stored in
the (initialised) error-message cell. -/
theorem l2dbus_c7_reg_failure_rollback (c : MatchCriteria)
    (rule : cdbus_MatchRule) (reg : cdbus_MatchRule → Option Nat)
    (s : String) (h1 : l2dbus_buildMatchRule c = .ok rule)
    (h2 : reg rule = none) :
    l2dbus_newMatch c reg (some (some s)) =
      some ⟨none, some "failed to register match handler", false, true,
            l2dbus_matchFreeRule rule⟩ := by
  simp only [l2dbus_newMatch, h1, h2, Option.map]

theorem l2dbus_c7_reg_failure_rollback_witness :
    l2dbus_newMatch emptyCriteria (fun _ => none) (some (some "x")) =
      some ⟨none, some "failed to register match handler", false, true,
            []⟩ :=
  l2dbus_c7_reg_failure_rollback emptyCriteria
    (l2dbus_baseRule emptyCriteria) (fun _ => none) "x" rfl rfl

/-- C8: l2dbus_newMatch executes `*errMsg = reason` behind the test
`*errMsg != NULL` (not `errMsg != NULL`) on every path, so a NULL errMsg
pointer is dereferenced unconditionally (undefined behaviour, the none
result); with a valid pointer, the reason is stored only when the
pointed-to string was initialised to a non-NULL value, and is stored (as
some reason) whenever it was. -/
theorem l2dbus_c8_errMsg_contract (c : MatchCriteria)
    (reg : cdbus_MatchRule → Option Nat) :
    l2dbus_newMatch c reg none = none ∧
    (∀ out, l2dbus_newMatch c reg (some none) = some out →
      out.errMsgOut = none) ∧
    (∀ s out, l2dbus_newMatch c reg (some (some s)) = some out →
      ∃ r, out.errMsgOut = some r) := by
  rcases hb : l2dbus_buildMatchRule c with ⟨r, pr⟩ | rule
  · simp only [l2dbus_newMatch, hb]
    refine ⟨trivial, ?_, ?_⟩
    · intro out hout
      injection hout with h
      subst h
      rfl
    · intro s out hout
      injection hout with h
      subst h
      exact ⟨r, rfl⟩
  · rcases hr : reg rule with _ | hnd <;>
      simp only [l2dbus_newMatch, hb, hr]
    · refine ⟨trivial, ?_, ?_⟩
      · intro out hout
        injection hout with h
        subst h
        rfl
      · intro s out hout
        injection hout with h
        subst h
        exact ⟨"failed to register match handler", rfl⟩
    · refine ⟨trivial, ?_, ?_⟩
      · intro out hout
        injection hout with h
        subst h
        rfl
      · intro s out hout
        injection hout with h
        subst h
        exact ⟨"", rfl⟩

theorem l2dbus_c8_errMsg_contract_witness :
    l2dbus_newMatch emptyCriteria (fun _ => some 3) none = none ∧
    (⟨some 3, none, true, false, []⟩ : NewMatchOutcome).errMsgOut = none ∧
    ∃ r, (⟨some 3, some "", true, false, []⟩ : NewMatchOutcome).errMsgOut =
      some r := by
  obtain ⟨h1, h2, h3⟩ :=
    l2dbus_c8_errMsg_contract emptyCriteria (fun _ => some 3)
  exact ⟨h1, h2 ⟨some 3, none, true, false, []⟩ rfl,
    h3 "" ⟨some 3, some "", true, false, []⟩ rfl⟩

/-- C9: l2dbus_refListIterInit reads LIST_NEXT of the first element
unconditionally, so it is well-defined only for a non-empty list (the
empty list makes it dereference NULL, the none result); on every
non-empty list it sets cur to the first element (the whole-list suffix)
and next to the successor of cur (the tail), the pre-computed position
that makes erase-during-iteration safe. -/
theorem l2dbus_c9_iterInit_spec (l : List Int) :
    (l = [] → l2dbus_refListIterInit l = none) ∧
    (l ≠ [] → l2dbus_refListIterInit l = some ⟨l, l.tail⟩) := by
  rcases l with _ | ⟨a, t⟩
  · exact ⟨fun _ => rfl, fun h => absurd rfl h⟩
  · exact ⟨fun h => List.noConfusion h, fun _ => rfl⟩

theorem l2dbus_c9_iterInit_spec_witness :
    l2dbus_refListIterInit [] = none ∧
    l2dbus_refListIterInit [4, 7] = some ⟨[4, 7], [7]⟩ :=
  ⟨(l2dbus_c9_iterInit_spec []).1 rfl,
   (l2dbus_c9_iterInit_spec [4, 7]).2 (by decide)⟩

/-- C10: the __pow metamethod l2dbus_int64Power returns 0 for every
negative exponent, and for every non-negative exponent it returns a
value in the int64 range that is congruent to base ^ exponent modulo
2 ^ 64 — the result of binary exponentiation by squaring with
wrap-around 64-bit multiplication. -/
theorem l2dbus_c10_int64Power_spec (a e : Int) :
    (e < 0 → l2dbus_int64Power a e = 0) ∧
    (0 ≤ e →
      Int.ModEq (2 ^ 64) (l2dbus_int64Power a e) (a ^ e.toNat) ∧
      -(2 ^ 63) ≤ l2dbus_int64Power a e ∧
      l2dbus_int64Power a e < 2 ^ 63) := by
  constructor
  · intro h
    unfold l2dbus_int64Power
    rw [if_pos (by omega)]
  · intro h
    unfold l2dbus_int64Power
    rw [if_neg (by omega)]
    refine ⟨?_, ?_⟩
    · show powLoop64 a e.toNat % 2 ^ 64 = a ^ e.toNat % 2 ^ 64
      unfold powLoop64
      rw [powLoop64Aux_emod e.toNat a 1 e.toNat le_rfl, one_mul]
    · exact powLoop64Aux_range e.toNat a 1 e.toNat (by norm_num) (by norm_num)

theorem l2dbus_c10_int64Power_spec_witness :
    l2dbus_int64Power 2 (-3) = 0 ∧
    Int.ModEq (2 ^ 64) (l2dbus_int64Power 2 70) (2 ^ (70 : Int).toNat) :=
  ⟨(l2dbus_c10_int64Power_spec 2 (-3)).1 (by decide),
   ((l2dbus_c10_int64Power_spec 2 70).2 (by decide)).1⟩
